import Mathlib

/-!
Verification of the `modified` crate: a generic wrapper `Modified<T>` holding
a value together with a boolean "modified" flag, and a variant `Resetable<T>`
that additionally allows clearing the flag.

The Rust structs are embedded as Lean structures; methods taking `&mut self`
become functions from the wrapper state to a new wrapper state.  The `Deref`
and `DerefMut` implementations are embedded in state-passing style: they
return the borrow target paired with the wrapper state that holds after the
borrow is produced (for `deref` the state is unchanged, since the receiver is
`&self`; for `deref_mut` the flag field has been set at acquisition time).
A write `*w = v` through the mutable borrow yields the post-acquisition state
with the value field replaced.
-/

namespace ModifiedCrate

variable {T : Type}

/-- Embedding of `Modified<T>` from `src/modify.rs`: field `value` is the
positional field `.0 : T`, field `modified` is the positional field
`.1 : bool`. -/
structure Modified (T : Type) where
  value : T
  modified : Bool
deriving DecidableEq, Repr

/-- Embedding of `Resetable<T>` from `src/reset.rs`: a single field
holding a `Modified<T>` (the positional field `.0`). -/
structure Resetable (T : Type) where
  inner : Modified T
deriving DecidableEq, Repr

/-- `Modified::new(v)`: `Self(v, false)`. -/
def Modified.new (v : T) : Modified T := ⟨v, false⟩

/-- `Modified::new_modified(v)`: `Self(v, true)`. -/
def Modified.new_modified (v : T) : Modified T := ⟨v, true⟩

/-- `Deref for Modified`: `fn deref(&self) -> &T { &self.0 }`.  The result is
the borrow target together with the state after the borrow; the receiver is
`&self`, so the state is the receiver itself, unchanged. -/
def Modified.deref (m : Modified T) : T × Modified T := (m.value, m)

/-- `DerefMut for Modified`: `fn deref_mut(&mut self) -> &mut T
{ self.1 = true; &mut self.0 }`.  The result is the current borrow target
together with the state after acquisition: the flag has been set. -/
def Modified.deref_mut (m : Modified T) : T × Modified T :=
  (m.value, { m with modified := true })

/-- A write `*m = v` through the borrow returned by `deref_mut`: the
post-acquisition state with the value field (the borrow target) replaced
by `v`. -/
def Modified.derefMutWrite (m : Modified T) (v : T) : Modified T :=
  { (m.deref_mut).2 with value := v }

/-- `Modified::set(v)`: the body is `**self = v;`, an assignment through
`deref_mut`. -/
def Modified.set (m : Modified T) (v : T) : Modified T := m.derefMutWrite v

/-- `Modified::get`: `&self.0`. -/
def Modified.get (m : Modified T) : T := m.value

/-- `Modified::get_value_changed`: `(&self.0, self.1)`. -/
def Modified.get_value_changed (m : Modified T) : T × Bool := (m.value, m.modified)

/-- `Modified::into_inner`: `self.0`. -/
def Modified.into_inner (m : Modified T) : T := m.value

/-- `Modified::into_inner_changed`: `(self.0, self.1)`. -/
def Modified.into_inner_changed (m : Modified T) : T × Bool := (m.value, m.modified)

/-- `Modified::is_modified`: `self.1`. -/
def Modified.is_modified (m : Modified T) : Bool := m.modified

/-- `Modified::is_unchanged`: `!self.1`. -/
def Modified.is_unchanged (m : Modified T) : Bool := !m.modified

/-- `Default for Modified`: `Self(T::default(), false)`; Rust's
`T::default()` is embedded as the `Inhabited` default. -/
def Modified.default [Inhabited T] : Modified T := ⟨Inhabited.default, false⟩

/-- `Modified::default_modified`: `Self(T::default(), true)`. -/
def Modified.default_modified [Inhabited T] : Modified T := ⟨Inhabited.default, true⟩

/-- `Clone for Modified`: `Self(self.0.clone(), self.1)`; the clone behaviour
of `T` is a parameter `cloneT`. -/
def Modified.clone (cloneT : T → T) (m : Modified T) : Modified T :=
  ⟨cloneT m.value, m.modified⟩

/-- `Into<Resetable<T>> for Modified<T>`: `fn into(self) -> Resetable<T>
{ Resetable(self) }`. -/
def Modified.into_resetable (m : Modified T) : Resetable T := ⟨m⟩

/-- `Resetable::new(v)`: `Self(Modified::new(v))`. -/
def Resetable.new (v : T) : Resetable T := ⟨Modified.new v⟩

/-- `Resetable::new_modified(v)`: `Self(Modified::new_modified(v))`. -/
def Resetable.new_modified (v : T) : Resetable T := ⟨Modified.new_modified v⟩

/-- `Resetable::reset`: `self.0.1 = false;` — only the flag field of the
wrapped `Modified` is written. -/
def Resetable.reset (r : Resetable T) : Resetable T :=
  ⟨{ r.inner with modified := false }⟩

/-- `Deref for Resetable`: `fn deref(&self) -> &T { &*self.0 }` — delegates
to `Modified`'s `deref`. -/
def Resetable.deref (r : Resetable T) : T × Resetable T :=
  ((r.inner.deref).1, ⟨(r.inner.deref).2⟩)

/-- `DerefMut for Resetable`: `fn deref_mut(&mut self) -> &mut T
{ &mut *self.0 }` — delegates to `Modified`'s `deref_mut`, so the wrapped
flag is set at acquisition. -/
def Resetable.deref_mut (r : Resetable T) : T × Resetable T :=
  ((r.inner.deref_mut).1, ⟨(r.inner.deref_mut).2⟩)

/-- A write `*r = v` through the borrow returned by `Resetable`'s
`deref_mut`: the borrow is the one produced by the wrapped `Modified`, so the
write is `Modified.derefMutWrite`. -/
def Resetable.derefMutWrite (r : Resetable T) (v : T) : Resetable T :=
  ⟨r.inner.derefMutWrite v⟩

/-- `Resetable::set(v)`: the body is `**self = v;`, an assignment through
`deref_mut`. -/
def Resetable.set (r : Resetable T) (v : T) : Resetable T := r.derefMutWrite v

/-- `Resetable::get`: `&self.0`, deref-coerced through `Modified`'s `Deref`
to `&self.0.0`. -/
def Resetable.get (r : Resetable T) : T := r.inner.value

/-- `Resetable::get_value_changed`: `(&self.0, self.0.1)` with the first
component deref-coerced to `&self.0.0`. -/
def Resetable.get_value_changed (r : Resetable T) : T × Bool :=
  (r.inner.value, r.inner.modified)

/-- `Resetable::into_inner`: `self.0.0`. -/
def Resetable.into_inner (r : Resetable T) : T := r.inner.value

/-- `Resetable::into_inner_changed`: `(self.0.0, self.0.1)`. -/
def Resetable.into_inner_changed (r : Resetable T) : T × Bool :=
  (r.inner.value, r.inner.modified)

/-- `Resetable::is_modified`: `self.0.1`. -/
def Resetable.is_modified (r : Resetable T) : Bool := r.inner.modified

/-- `Resetable::is_unchanged`: `!self.0.1`. -/
def Resetable.is_unchanged (r : Resetable T) : Bool := !r.inner.modified

/-- `Default for Resetable`: `Self(Modified::default())`. -/
def Resetable.default [Inhabited T] : Resetable T := ⟨Modified.default⟩

/-- `Resetable::default_modified`: `Self(Modified::default_modified())`. -/
def Resetable.default_modified [Inhabited T] : Resetable T :=
  ⟨Modified.default_modified⟩

/-- `Clone for Resetable`: `Self(self.0.clone())`. -/
def Resetable.clone (cloneT : T → T) (r : Resetable T) : Resetable T :=
  ⟨r.inner.clone cloneT⟩

/-- The public operations of `Modified<T>` that act in place on one instance
(methods taking `&mut self` or `&self`, and uses of the two deref paths);
consuming operations end the instance's life and are not transitions. -/
inductive MOp (T : Type) where
  | setOp (v : T)
  | derefMutAcq
  | derefMutAssign (v : T)
  | readOnly

/-- The state transition of one public in-place operation. -/
def MOp.apply (op : MOp T) (m : Modified T) : Modified T :=
  match op with
  | .setOp v => m.set v
  | .derefMutAcq => (m.deref_mut).2
  | .derefMutAssign v => m.derefMutWrite v
  | .readOnly => (m.deref).2

/-- Applying a sequence of public in-place operations, oldest first. -/
def applyOps (ops : List (MOp T)) (m : Modified T) : Modified T :=
  ops.foldl (fun s op => op.apply s) m

/-- C1: on both `Modified<T>` and `Resetable<T>`, producing the mutable
borrow via `deref_mut` already sets the modified flag to `true` (even if
nothing is written through the borrow) while leaving the stored value as it
was; the read-only `deref` returns the stored value and leaves the whole
wrapper state (flag and value) exactly as it was. -/
theorem deref_mut_sets_flag_deref_is_pure (m : Modified T) (r : Resetable T) :
    ((m.deref_mut).2).is_modified = true ∧
    ((m.deref_mut).2).value = m.value ∧
    m.deref = (m.value, m) ∧
    ((r.deref_mut).2).is_modified = true ∧
    ((r.deref_mut).2).get = r.get ∧
    r.deref = (r.get, r) :=
  ⟨rfl, rfl, rfl, rfl, rfl, rfl⟩

/-- C2: on both wrappers, `set v` stores `v` and unconditionally sets the
flag to `true`; the statement quantifies over all prior states, so it holds
in particular when `v` equals the previously stored value (no equality check
is performed). -/
theorem set_stores_value_and_sets_flag (m : Modified T) (r : Resetable T) (v : T) :
    (m.set v).value = v ∧
    (m.set v).is_modified = true ∧
    (r.set v).get = v ∧
    (r.set v).is_modified = true :=
  ⟨rfl, rfl, rfl, rfl⟩

/-- C3: after `reset`, `is_unchanged` returns `true` and the stored value is
identical to the value held immediately before the call; `reset` writes only
the flag field of the wrapped `Modified`, never its value field. -/
theorem reset_clears_flag_and_preserves_value (r : Resetable T) :
    (r.reset).is_unchanged = true ∧
    (r.reset).get = r.get ∧
    (r.reset).inner.value = r.inner.value :=
  ⟨rfl, rfl, rfl⟩

/-- C4: on a plain `Modified<T>`, once `is_modified` returns `true`, it
returns `true` after every further sequence of public in-place operations:
the transition back to unmodified is unreachable. -/
theorem modified_is_absorbing (ops : List (MOp T)) (m : Modified T)
    (h : m.is_modified = true) : (applyOps ops m).is_modified = true := by
  induction ops generalizing m with
  | nil => exact h
  | cons op rest ih =>
      cases op with
      | setOp v => exact ih _ rfl
      | derefMutAcq => exact ih _ rfl
      | derefMutAssign v => exact ih _ rfl
      | readOnly => exact ih _ h

/-- Witness for C4 at a concrete input: a modified `Modified Int` stays
modified after a read, a bare mutable-borrow acquisition, and a `set`. -/
theorem modified_is_absorbing_witness :
    (Modified.new_modified (3 : Int)).is_modified = true ∧
    (applyOps [MOp.readOnly, MOp.derefMutAcq, MOp.setOp 5]
      (Modified.new_modified (3 : Int))).is_modified = true :=
  ⟨rfl, modified_is_absorbing [MOp.readOnly, MOp.derefMutAcq, MOp.setOp 5]
    (Modified.new_modified (3 : Int)) rfl⟩

/-- C5: the initial flag is fixed by the constructor: `new v` is unchanged,
`new_modified v` is modified, `default` wraps `T`'s default value with the
flag `false`, `default_modified` wraps `T`'s default value with the flag
`true`; concretely, `default_modified` at `Int` holds `0` and is modified.
The same holds for the delegating `Resetable` constructors. -/
theorem constructors_fix_initial_flag (v : T) [Inhabited T] :
    (Modified.new v).is_unchanged = true ∧
    (Modified.new_modified v).is_modified = true ∧
    (Modified.default : Modified T).value = Inhabited.default ∧
    (Modified.default : Modified T).is_unchanged = true ∧
    (Modified.default_modified : Modified T).value = Inhabited.default ∧
    (Modified.default_modified : Modified T).is_modified = true ∧
    (Modified.default_modified : Modified Int).value = 0 ∧
    (Resetable.new v).is_unchanged = true ∧
    (Resetable.new_modified v).is_modified = true ∧
    (Resetable.default : Resetable T).get = Inhabited.default ∧
    (Resetable.default : Resetable T).is_unchanged = true ∧
    (Resetable.default_modified : Resetable T).get = Inhabited.default ∧
    (Resetable.default_modified : Resetable T).is_modified = true :=
  ⟨rfl, rfl, rfl, rfl, rfl, rfl, rfl, rfl, rfl, rfl, rfl, rfl, rfl⟩

/-- C6: the consuming conversion from `Modified<T>` to `Resetable<T>`
preserves the flag and the value (no implicit reset); concretely, converting
`new_modified 7` yields a modified resettable wrapper holding `7`, and
resetting that yields an unchanged wrapper still holding `7`. -/
theorem into_resetable_preserves_state (m : Modified T) :
    (m.into_resetable).is_modified = m.is_modified ∧
    (m.into_resetable).get = m.get ∧
    ((Modified.new_modified (7 : Int)).into_resetable).is_modified = true ∧
    ((Modified.new_modified (7 : Int)).into_resetable).get = 7 ∧
    ((Modified.new_modified (7 : Int)).into_resetable).reset.is_unchanged = true ∧
    ((Modified.new_modified (7 : Int)).into_resetable).reset.get = 7 :=
  ⟨rfl, rfl, rfl, rfl, rfl, rfl⟩

/-- C7: `reset` is idempotent — resetting twice yields exactly the state of
resetting once — and resetting a wrapper whose flag is already `false`
leaves the whole state (value and flag) unchanged. -/
theorem reset_idempotent (r : Resetable T) :
    r.reset.reset = r.reset ∧ (r.is_unchanged = true → r.reset = r) := by
  refine ⟨rfl, fun h => ?_⟩
  have hflag : r.inner.modified = false := by
    simpa [Resetable.is_unchanged] using h
  cases r with
  | mk inner =>
      cases inner with
      | mk v f =>
          simp only [Resetable.reset]
          simp_all

/-- Witness for C7 at a concrete input: resetting the freshly constructed
`Resetable.new 5`, whose flag is already `false`, is a no-op. -/
theorem reset_idempotent_witness :
    (Resetable.new (5 : Int)).reset = Resetable.new (5 : Int) :=
  (reset_idempotent (Resetable.new (5 : Int))).2 rfl

/-- C8: cloning either wrapper preserves the flag — for every state, whether
the flag is `true` or `false` — and the clone holds the clone of the stored
value (the clone operation of `T` is the parameter `cloneT`). -/
theorem clone_preserves_flag (cloneT : T → T) (m : Modified T) (r : Resetable T) :
    (m.clone cloneT).is_modified = m.is_modified ∧
    (m.clone cloneT).value = cloneT m.value ∧
    (r.clone cloneT).is_modified = r.is_modified ∧
    (r.clone cloneT).get = cloneT r.get :=
  ⟨rfl, rfl, rfl, rfl⟩

/-- C9: on both wrappers, `into_inner_changed` returns the pair of the
currently stored value and the flag `is_modified` would report, and
`into_inner` returns that same value alone; the stored value is the most
recently stored one, as witnessed by its update under `set` and under a
write through the mutable borrow. -/
theorem into_inner_changed_projects_state (m : Modified T) (r : Resetable T) (v : T) :
    m.into_inner_changed = (m.into_inner, m.is_modified) ∧
    m.into_inner = m.value ∧
    (m.set v).into_inner_changed = (v, true) ∧
    (m.derefMutWrite v).into_inner_changed = (v, true) ∧
    r.into_inner_changed = (r.into_inner, r.is_modified) ∧
    r.into_inner = r.inner.value ∧
    (r.set v).into_inner_changed = (v, true) ∧
    (r.derefMutWrite v).into_inner_changed = (v, true) :=
  ⟨rfl, rfl, rfl, rfl, rfl, rfl, rfl, rfl⟩

/-- C10: on both wrappers, `set v` is observably the assignment through the
mutable dereference path — from every starting state the two leave the same
resulting state, namely value `v` with the flag set. -/
theorem set_equals_deref_mut_assignment (m : Modified T) (r : Resetable T) (v : T) :
    m.set v = m.derefMutWrite v ∧
    m.set v = ⟨v, true⟩ ∧
    r.set v = r.derefMutWrite v ∧
    r.set v = ⟨⟨v, true⟩⟩ :=
  ⟨rfl, rfl, rfl, rfl⟩

end ModifiedCrate
